import Mathlib

set_option maxRecDepth 4000

/-!
Verification of the Google Search MCP server (`src/main.py`), a FastAPI
service with one POST endpoint `/search/`.

The embedding models the external collaborators as function parameters:
the Google Custom Search provider (`googleapiclient` `build`/`execute`) as a
function from (query, language restriction, result count) to either a raw
provider response or an exception message, and the page fetch-and-parse
step (`requests.get` followed by BeautifulSoup paragraph extraction) as a
function from (call index, link) to either the list of paragraph texts or
an exception message. Strings are modelled as Lean `String`; Python string
slicing `[:1000]` slices by character, embedded as `List.take 1000` on the
character data. Python dictionaries with optionally present keys are
modelled as records of `Option` fields, `dict.get` returning `none` for an
absent key. Python truthiness of `os.getenv` results (`not GOOGLE_API_KEY`)
is `true` exactly on `none` and `some ""`.
-/

namespace GoogleSearchMCP

/-- One raw item of the provider response (`result['items'][i]`); the keys
`title`, `link`, `snippet` may each be absent, and `item.get(k)` yields
`none` then. -/
structure ProviderItem where
  title : Option String
  link : Option String
  snippet : Option String
deriving Repr, DecidableEq

/-- The raw provider response object: the key `'items'` may be absent
(`if 'items' in result`). -/
structure ProviderResult where
  items : Option (List ProviderItem)
deriving Repr, DecidableEq

/-- One `result_dict` built by the loop in `perform_google_search`: keys
`title`, `link`, `snippet` always present (possibly with value `None`),
key `full_text` present only when enrichment ran. -/
structure ResultItem where
  title : Option String
  link : Option String
  snippet : Option String
  full_text : Option String
deriving Repr, DecidableEq

/-- `fastapi.HTTPException(status_code=..., detail=...)`. -/
structure HTTPException where
  status_code : Nat
  detail : String
deriving Repr, DecidableEq

/-- The provider call: given `q`, the language restriction string `lr` and
`num`, either the parsed response or the message of the exception raised by
`build`/`execute`. -/
def Provider : Type := String → String → Int → Except String ProviderResult

/-- The page fetch-and-parse step for one loop iteration: given the index
of the call and the `link` value passed to `requests.get`, either the list
of `p.get_text()` strings for the parsed paragraphs or the message of the
exception raised inside the `try` block. -/
def Fetcher : Type := Nat → Option String → Except String (List String)

/-- Body of `if full_text:` in `perform_google_search` for one item:
on success, `' '.join([p.get_text() for p in paragraphs])[:1000]` is
stored under `full_text`; on any exception `e`, the string
`"Error fetching text: " ++ str(e)` is stored instead. -/
def enrichItem (outcome : Except String (List String)) (item : ProviderItem) : ResultItem :=
  match outcome with
  | .ok paragraphs =>
      { title := item.title, link := item.link, snippet := item.snippet,
        full_text := some (String.mk ((String.intercalate " " paragraphs).data.take 1000)) }
  | .error e =>
      { title := item.title, link := item.link, snippet := item.snippet,
        full_text := some ("Error fetching text: " ++ e) }

/-- The `result_dict` for one item when `full_text` was not requested. -/
def formatItem (item : ProviderItem) : ResultItem :=
  { title := item.title, link := item.link, snippet := item.snippet, full_text := none }

/-- The `for item in result['items']` loop building `formatted_results`,
carrying the index of the current iteration (the n-th iteration performs
the n-th `requests.get` call, with the item's own `link`). -/
def formatItems (fetch : Fetcher) (ft : Bool) : Nat → List ProviderItem → List ResultItem
  | _, [] => []
  | i, item :: rest =>
      (if ft then enrichItem (fetch i item.link) item else formatItem item)
        :: formatItems fetch ft (i + 1) rest

/-- `perform_google_search(query, lang_code, num, full_text)`: calls the
provider with `lr = "lang_" ++ lang_code`; a provider exception becomes
`HTTPException(500, "Google Search API error: " ++ e)`; otherwise the items
(if the key is present) are formatted, with per-item enrichment when
`full_text` is set, and a missing `'items'` key yields `[]`. -/
def perform_google_search (provider : Provider) (fetch : Fetcher)
    (query lang_code : String) (num : Int) (ft : Bool) :
    Except HTTPException (List ResultItem) :=
  match provider query ("lang_" ++ lang_code) num with
  | .error e =>
      .error { status_code := 500, detail := "Google Search API error: " ++ e }
  | .ok result =>
      match result.items with
      | some items => .ok (formatItems fetch ft 0 items)
      | none => .ok []

/-- The validated request body (`SearchRequest(BaseModel)`). -/
structure SearchRequest where
  query : String
  lang_code : String
  num : Int
  full_text : Bool
deriving Repr, DecidableEq

/-- A raw inbound JSON payload for `/search/`, before pydantic validation:
each field may be absent. -/
structure RawPayload where
  query : Option String
  lang_code : Option String
  num : Option Int
  full_text : Option Bool
deriving Repr, DecidableEq

/-- Pydantic validation of the `SearchRequest` model: `query : str` is
required (any string, the empty string included); `lang_code` defaults to
`"en"`; `num` is required with `ge=1, le=10`; `full_text` is required. -/
def validate (p : RawPayload) : Except String SearchRequest :=
  match p.query with
  | none => .error "query: field required"
  | some q =>
      match p.num with
      | none => .error "num: field required"
      | some n =>
          if n < 1 then .error "num: ensure this value is greater than or equal to 1"
          else if 10 < n then .error "num: ensure this value is less than or equal to 10"
          else
            match p.full_text with
            | none => .error "full_text: field required"
            | some ftv =>
                .ok { query := q, lang_code := p.lang_code.getD "en", num := n,
                      full_text := ftv }

/-- Process environment as read at startup: `os.getenv` yields `none` for
an unset variable. -/
structure Env where
  GOOGLE_API_KEY : Option String
  GOOGLE_CSE_ID : Option String
deriving Repr, DecidableEq

/-- Python truthiness test `not x` on an `os.getenv` result: `None` and the
empty string are falsy. -/
def pyFalsy : Option String → Bool
  | none => true
  | some s => s == ""

/-- Body of a successful `/search/` response: either
`{"message": "No results found.", "results": []}` or `{"results": ...}`. -/
structure ResponseBody where
  message : Option String
  results : List ResultItem
deriving Repr, DecidableEq

/-- Outcome of a request: a 200 response with a JSON body, or a raised
`HTTPException`. -/
inductive Response where
  | ok (body : ResponseBody)
  | err (e : HTTPException)
deriving Repr, DecidableEq

/-- The `/search/` endpoint handler `search(request)`: checks the
credentials (`if not GOOGLE_API_KEY or not GOOGLE_CSE_ID`), calls
`perform_google_search`, and wraps the result, with the no-results message
when the list is empty (`if not search_results`). -/
def search (env : Env) (provider : Provider) (fetch : Fetcher)
    (request : SearchRequest) : Response :=
  if pyFalsy env.GOOGLE_API_KEY || pyFalsy env.GOOGLE_CSE_ID then
    .err { status_code := 500,
           detail := "Server is not configured with Google API credentials." }
  else
    match perform_google_search provider fetch request.query request.lang_code
        request.num request.full_text with
    | .error e => .err e
    | .ok search_results =>
        if search_results.isEmpty then
          .ok { message := some "No results found.", results := [] }
        else
          .ok { message := none, results := search_results }

/-- Full request handling at the framework level: FastAPI validates the
payload against the pydantic model before the handler runs, answering 422
with the validation message when it fails. -/
def handle (env : Env) (provider : Provider) (fetch : Fetcher) (p : RawPayload) : Response :=
  match validate p with
  | .error e => .err { status_code := 422, detail := e }
  | .ok request => search env provider fetch request

/-! ### Concrete collaborators shared by witnesses -/

/-- An environment with both credentials set to non-empty strings. -/
def envOK : Env := { GOOGLE_API_KEY := some "key", GOOGLE_CSE_ID := some "cse" }

/-- A provider answering every query with one fully-populated item. -/
def provOne : Provider :=
  fun _ _ _ => .ok { items := some [{ title := some "T", link := some "http://a",
                                      snippet := some "S" }] }

/-- A provider whose call raises. -/
def provBoom : Provider := fun _ _ _ => .error "boom"

/-- A fetcher whose every call succeeds with two paragraphs. -/
def fetchHello : Fetcher := fun _ _ => .ok ["hello", "world"]

/-- A fetcher whose every call raises. -/
def fetchBoom : Fetcher := fun _ _ => .error "boom"

/-! ### Structural lemmas about the formatting loop -/

theorem formatItems_length (fetch : Fetcher) (ft : Bool) (i : Nat)
    (items : List ProviderItem) :
    (formatItems fetch ft i items).length = items.length := by
  induction items generalizing i with
  | nil => rfl
  | cons a rest ih => simp [formatItems, ih]

theorem formatItems_get? (fetch : Fetcher) (ft : Bool) (i j : Nat)
    (items : List ProviderItem) :
    (formatItems fetch ft i items).get? j =
      (items.get? j).map (fun item =>
        if ft then enrichItem (fetch (i + j) item.link) item else formatItem item) := by
  induction items generalizing i j with
  | nil => simp [formatItems]
  | cons a rest ih =>
      cases j with
      | zero => simp [formatItems]
      | succ j =>
          have e1 : (i + 1) + j = i + (j + 1) := by omega
          have h2 := ih (i + 1) j
          rw [e1] at h2
          simpa [formatItems] using h2

theorem enrichItem_title (o : Except String (List String)) (item : ProviderItem) :
    (enrichItem o item).title = item.title := by cases o <;> rfl

theorem enrichItem_link (o : Except String (List String)) (item : ProviderItem) :
    (enrichItem o item).link = item.link := by cases o <;> rfl

theorem enrichItem_snippet (o : Except String (List String)) (item : ProviderItem) :
    (enrichItem o item).snippet = item.snippet := by cases o <;> rfl

/-! ### Claims -/

/-- C6: whenever the provider returns zero items (the `items` key absent,
or present with an empty list) and the credentials are configured, the
endpoint answers 200 with exactly
`{"message": "No results found.", "results": []}`. -/
theorem C6_no_results_envelope (env : Env) (provider : Provider) (fetch : Fetcher)
    (request : SearchRequest)
    (hkey : pyFalsy env.GOOGLE_API_KEY = false)
    (hcse : pyFalsy env.GOOGLE_CSE_ID = false)
    (hp : provider request.query ("lang_" ++ request.lang_code) request.num =
            .ok { items := none } ∨
          provider request.query ("lang_" ++ request.lang_code) request.num =
            .ok { items := some [] }) :
    search env provider fetch request =
      .ok { message := some "No results found.", results := [] } := by
  have hperf : perform_google_search provider fetch request.query request.lang_code
      request.num request.full_text = .ok [] := by
    cases hp with
    | inl h => simp [perform_google_search, h]
    | inr h => simp [perform_google_search, h, formatItems]
  simp [search, hkey, hcse, hperf]

/-- Witness for C6 at a concrete zero-item provider response. -/
theorem C6_no_results_envelope_witness :
    search envOK (fun _ _ _ => .ok { items := none }) fetchHello
      { query := "q", lang_code := "en", num := 3, full_text := false } =
      .ok { message := some "No results found.", results := [] } :=
  C6_no_results_envelope envOK (fun _ _ _ => .ok { items := none }) fetchHello
    { query := "q", lang_code := "en", num := 3, full_text := false }
    rfl rfl (Or.inl rfl)

/-- C7: when `GOOGLE_API_KEY` or `GOOGLE_CSE_ID` is absent from the
environment, every request gets the 500 configuration-error response, and
the outcome is the same whatever the provider and fetcher do — so no
provider call is made. -/
theorem C7_missing_credentials (env : Env)
    (h : env.GOOGLE_API_KEY = none ∨ env.GOOGLE_CSE_ID = none)
    (provider provider2 : Provider) (fetch fetch2 : Fetcher)
    (request : SearchRequest) :
    search env provider fetch request =
      .err { status_code := 500,
             detail := "Server is not configured with Google API credentials." } ∧
    search env provider fetch request = search env provider2 fetch2 request := by
  cases h with
  | inl h => constructor <;> simp [search, pyFalsy, h]
  | inr h => constructor <;> simp [search, pyFalsy, h]

/-- Witness for C7: an unset API key with two different providers. -/
theorem C7_missing_credentials_witness :
    search { GOOGLE_API_KEY := none, GOOGLE_CSE_ID := some "cse" } provOne fetchHello
      { query := "q", lang_code := "en", num := 3, full_text := false } =
      .err { status_code := 500,
             detail := "Server is not configured with Google API credentials." } ∧
    search { GOOGLE_API_KEY := none, GOOGLE_CSE_ID := some "cse" } provOne fetchHello
      { query := "q", lang_code := "en", num := 3, full_text := false } =
      search { GOOGLE_API_KEY := none, GOOGLE_CSE_ID := some "cse" } provBoom fetchBoom
        { query := "q", lang_code := "en", num := 3, full_text := false } :=
  C7_missing_credentials _ (Or.inl rfl) provOne provBoom fetchHello fetchBoom _

/-- C10: an empty-string credential is treated exactly like an absent one:
the request gets the same 500 configuration-error response as under an
entirely unset environment. -/
theorem C10_empty_credentials (env : Env)
    (h : env.GOOGLE_API_KEY = some "" ∨ env.GOOGLE_CSE_ID = some "")
    (provider : Provider) (fetch : Fetcher) (request : SearchRequest) :
    search env provider fetch request =
      .err { status_code := 500,
             detail := "Server is not configured with Google API credentials." } ∧
    search env provider fetch request =
      search { GOOGLE_API_KEY := none, GOOGLE_CSE_ID := none } provider fetch request := by
  cases h with
  | inl h => constructor <;> simp [search, pyFalsy, h]
  | inr h => constructor <;> simp [search, pyFalsy, h]

/-- Witness for C10: an empty-string API key. -/
theorem C10_empty_credentials_witness :
    search { GOOGLE_API_KEY := some "", GOOGLE_CSE_ID := some "cse" } provOne fetchHello
      { query := "q", lang_code := "en", num := 3, full_text := false } =
      .err { status_code := 500,
             detail := "Server is not configured with Google API credentials." } ∧
    search { GOOGLE_API_KEY := some "", GOOGLE_CSE_ID := some "cse" } provOne fetchHello
      { query := "q", lang_code := "en", num := 3, full_text := false } =
      search { GOOGLE_API_KEY := none, GOOGLE_CSE_ID := none } provOne fetchHello
        { query := "q", lang_code := "en", num := 3, full_text := false } :=
  C10_empty_credentials _ (Or.inl rfl) provOne fetchHello _

/-- C9: a payload whose `num` is missing or outside `[1, 10]` fails
pydantic validation, and the request outcome does not depend on the
provider or the fetcher — the provider is never called. -/
theorem C9_num_validation (p : RawPayload)
    (h : p.num = none ∨ ∃ n, p.num = some n ∧ (n < 1 ∨ 10 < n)) :
    (∃ e, validate p = .error e) ∧
    ∀ env provider provider2 fetch fetch2,
      handle env provider fetch p = handle env provider2 fetch2 p := by
  have herr : ∃ e, validate p = .error e := by
    cases hq : p.query with
    | none => exact ⟨"query: field required", by simp [validate, hq]⟩
    | some q =>
        cases h with
        | inl hn => exact ⟨"num: field required", by simp [validate, hq, hn]⟩
        | inr hn =>
            obtain ⟨n, hn, hrange⟩ := hn
            cases hrange with
            | inl hlt =>
                exact ⟨"num: ensure this value is greater than or equal to 1",
                  by simp [validate, hq, hn, hlt]⟩
            | inr hgt =>
                have h1 : ¬ n < 1 := by omega
                exact ⟨"num: ensure this value is less than or equal to 10",
                  by simp [validate, hq, hn, h1, hgt]⟩
  obtain ⟨e, he⟩ := herr
  exact ⟨⟨e, he⟩, fun env p1 p2 f1 f2 => by simp [handle, he]⟩

/-- Witness for C9 at the concrete payload with `num = 0`. -/
theorem C9_num_validation_witness :
    (∃ e, validate { query := some "q", lang_code := none, num := some 0,
                     full_text := some true } = .error e) ∧
    handle envOK provOne fetchHello
        { query := some "q", lang_code := none, num := some 0, full_text := some true } =
      handle envOK provBoom fetchBoom
        { query := some "q", lang_code := none, num := some 0, full_text := some true } :=
  ⟨(C9_num_validation _ (Or.inr ⟨0, rfl, Or.inl (by decide)⟩)).1,
   (C9_num_validation _ (Or.inr ⟨0, rfl, Or.inl (by decide)⟩)).2
     envOK provOne provBoom fetchHello fetchBoom⟩

/-- A 980-character exception message, as `str(e)` may carry (long URLs
routinely appear in `requests` error messages). -/
def longMessage : String := String.mk (List.replicate 980 'x')

/-- C1 counterexample: when the page fetch raises with a 980-character
message, the item's `full_text` is the untruncated
`"Error fetching text: " ++ str(e)` of length 1001 — the 1000-character
bound only applies to the successful-extraction branch. -/
theorem C1_counterexample :
    perform_google_search
        (fun _ _ _ => .ok { items := some [{ title := some "T", link := some "http://a",
                                             snippet := some "S" }] })
        (fun _ _ => .error longMessage) "q" "en" 1 true =
      .ok [{ title := some "T", link := some "http://a", snippet := some "S",
             full_text := some ("Error fetching text: " ++ longMessage) }] ∧
    ("Error fetching text: " ++ longMessage).length = 1001 := by
  refine ⟨rfl, ?_⟩
  have h1 : ("Error fetching text: " ++ longMessage).length =
      "Error fetching text: ".length + longMessage.length := String.length_append _ _
  have h2 : longMessage.length = 980 := by
    simp [longMessage, String.length]
  rw [h1, h2]
  rfl

theorem mem_formatItems_enriched (fetch : Fetcher) (i : Nat)
    (items : List ProviderItem) (item : ResultItem)
    (hmem : item ∈ formatItems fetch true i items) :
    ∃ s, item.full_text = some s ∧
      (s.length ≤ 1000 ∨ ∃ e, s = "Error fetching text: " ++ e) := by
  induction items generalizing i with
  | nil => simp [formatItems] at hmem
  | cons a rest ih =>
      simp only [formatItems, if_true] at hmem
      rcases List.mem_cons.mp hmem with hhd | htl
      · subst hhd
        cases ho : fetch i a.link with
        | ok ps =>
            refine ⟨String.mk ((String.intercalate " " ps).data.take 1000),
              by simp [enrichItem, ho], Or.inl ?_⟩
            have hl : (String.mk ((String.intercalate " " ps).data.take 1000)).length =
                ((String.intercalate " " ps).data.take 1000).length := rfl
            rw [hl, List.length_take]
            exact Nat.min_le_left _ _
        | error e =>
            exact ⟨"Error fetching text: " ++ e, by simp [enrichItem, ho], Or.inr ⟨e, rfl⟩⟩
      · exact ih (i + 1) htl

/-- C1 (amended): on a successful search with `full_text = true`, every
result item has a `full_text` attribute; its value is at most 1000
characters when extraction succeeded, and otherwise it is the inline
error string `"Error fetching text: " ++ str(e)`, which is not truncated
and may exceed 1000 characters. -/
theorem C1_full_text_present (provider : Provider) (fetch : Fetcher)
    (query lang_code : String) (num : Int) (results : List ResultItem)
    (h : perform_google_search provider fetch query lang_code num true = .ok results) :
    ∀ item ∈ results, ∃ s, item.full_text = some s ∧
      (s.length ≤ 1000 ∨ ∃ e, s = "Error fetching text: " ++ e) := by
  intro item hmem
  cases hp : provider query ("lang_" ++ lang_code) num with
  | error e =>
      rw [perform_google_search, hp] at h
      simp at h
  | ok r =>
      cases hi : r.items with
      | none =>
          simp [perform_google_search, hp, hi] at h
          subst h
          simp at hmem
      | some items =>
          simp [perform_google_search, hp, hi] at h
          subst h
          exact mem_formatItems_enriched fetch 0 items item hmem

/-- Witness for C1 at a concrete successful fetch. -/
theorem C1_full_text_present_witness :
    ∃ s, (enrichItem (fetchHello 0 (some "http://a"))
            { title := some "T", link := some "http://a", snippet := some "S" }).full_text =
          some s ∧
      (s.length ≤ 1000 ∨ ∃ e, s = "Error fetching text: " ++ e) :=
  C1_full_text_present provOne fetchHello "q" "en" 1
    (formatItems fetchHello true 0
      [{ title := some "T", link := some "http://a", snippet := some "S" }]) rfl
    (enrichItem (fetchHello 0 (some "http://a"))
      { title := some "T", link := some "http://a", snippet := some "S" })
    (List.Mem.head _)

/-- C3 counterexample: a provider item with all three keys absent is
mapped to a result whose `title` is null (`item.get('title')` yields
`None`), not the empty-string placeholder the claim requires. -/
theorem C3_counterexample :
    perform_google_search
        (fun _ _ _ => .ok { items := some [{ title := none, link := none, snippet := none }] })
        fetchHello "q" "en" 1 false =
      .ok [{ title := none, link := none, snippet := none, full_text := none }] ∧
    ({ title := none, link := none, snippet := none, full_text := none } : ResultItem).title ≠
      some "" := by
  exact ⟨rfl, by simp⟩

/-- C3 (amended): each result item carries the provider item's `title`,
`link` and `snippet` verbatim; an attribute the provider omitted is
carried as null (`none`), not replaced by an empty placeholder. -/
theorem C3_fields_verbatim (provider : Provider) (fetch : Fetcher)
    (query lang_code : String) (num : Int) (ft : Bool)
    (items : List ProviderItem) (results : List ResultItem) (j : Nat)
    (pitem : ProviderItem) (ritem : ResultItem)
    (hp : provider query ("lang_" ++ lang_code) num = .ok { items := some items })
    (h : perform_google_search provider fetch query lang_code num ft = .ok results)
    (hj : items.get? j = some pitem) (hr : results.get? j = some ritem) :
    ritem.title = pitem.title ∧ ritem.link = pitem.link ∧ ritem.snippet = pitem.snippet := by
  have hres : results = formatItems fetch ft 0 items := by
    rw [perform_google_search, hp] at h
    simp at h
    exact h.symm
  subst hres
  rw [formatItems_get?, hj] at hr
  simp at hr
  subst hr
  cases ft with
  | true => simp [enrichItem_title, enrichItem_link, enrichItem_snippet]
  | false => simp [formatItem]

/-- Witness for C3 at a provider item whose `title` key is absent. -/
theorem C3_fields_verbatim_witness :
    ({ title := none, link := some "http://a", snippet := some "S",
       full_text := none } : ResultItem).title =
      ({ title := none, link := some "http://a", snippet := some "S" } : ProviderItem).title ∧
    ({ title := none, link := some "http://a", snippet := some "S",
       full_text := none } : ResultItem).link =
      ({ title := none, link := some "http://a", snippet := some "S" } : ProviderItem).link ∧
    ({ title := none, link := some "http://a", snippet := some "S",
       full_text := none } : ResultItem).snippet =
      ({ title := none, link := some "http://a", snippet := some "S" } : ProviderItem).snippet :=
  C3_fields_verbatim
    (fun _ _ _ => .ok { items := some [{ title := none, link := some "http://a",
                                         snippet := some "S" }] })
    fetchHello "q" "en" 1 false
    [{ title := none, link := some "http://a", snippet := some "S" }]
    [{ title := none, link := some "http://a", snippet := some "S", full_text := none }]
    0
    { title := none, link := some "http://a", snippet := some "S" }
    { title := none, link := some "http://a", snippet := some "S", full_text := none }
    rfl rfl rfl rfl

/-- A provider whose single item has no `link` key. -/
def provNoLink : Provider :=
  fun _ _ _ => .ok { items := some [{ title := some "T", link := none,
                                      snippet := some "S" }] }

/-- A fetcher that succeeds on every call with a non-empty link and raises
with message A otherwise. -/
def c5fA : Fetcher := fun _ l =>
  match l with
  | none => .error "Invalid URL A"
  | some s => if s = "" then .error "Invalid URL A" else .ok ["page"]

/-- Like `c5fA` but raising with message B: the two fetchers agree on
every call whose link is non-empty. -/
def c5fB : Fetcher := fun _ l =>
  match l with
  | none => .error "Invalid URL B"
  | some s => if s = "" then .error "Invalid URL B" else .ok ["page"]

/-- C5 counterexample: `c5fA` and `c5fB` agree on every call with a
non-empty link, yet the search over an item with an absent link returns
different results under the two — the code passes `item.get('link')` to
`requests.get` unconditionally, so the item's content does depend on the
fetcher even when the link is absent. -/
theorem C5_counterexample :
    (∀ j s, s ≠ "" → c5fA j (some s) = c5fB j (some s)) ∧
    perform_google_search provNoLink c5fA "q" "en" 1 true ≠
      perform_google_search provNoLink c5fB "q" "en" 1 true := by
  constructor
  · intro j s hs
    simp [c5fA, c5fB, hs]
  · intro hcontra
    simp [perform_google_search, provNoLink, formatItems, enrichItem, c5fA, c5fB] at hcontra

/-- C5 (amended): the page fetch is attempted for every result item, with
whatever value the `link` key holds (including an absent one): the j-th
result is exactly `enrichItem` of the fetcher's outcome for the j-th call
made with that item's link, so items with an absent or empty link also
take their `full_text` from the fetcher's outcome. -/
theorem C5_fetch_always_attempted (provider : Provider) (fetch : Fetcher)
    (query lang_code : String) (num : Int) (items : List ProviderItem)
    (results : List ResultItem) (j : Nat) (pitem : ProviderItem)
    (hp : provider query ("lang_" ++ lang_code) num = .ok { items := some items })
    (h : perform_google_search provider fetch query lang_code num true = .ok results)
    (hj : items.get? j = some pitem) :
    results.get? j = some (enrichItem (fetch j pitem.link) pitem) := by
  have hres : results = formatItems fetch true 0 items := by
    rw [perform_google_search, hp] at h
    simp at h
    exact h.symm
  subst hres
  rw [formatItems_get?, hj]
  simp

/-- Witness for C5 at the concrete item with an absent link. -/
theorem C5_fetch_always_attempted_witness :
    [{ title := some "T", link := none, snippet := some "S",
       full_text := some ("Error fetching text: " ++ "Invalid URL A") }].get? 0 =
      some (enrichItem (c5fA 0 none)
        { title := some "T", link := none, snippet := some "S" }) :=
  C5_fetch_always_attempted provNoLink c5fA "q" "en" 1
    [{ title := some "T", link := none, snippet := some "S" }]
    [{ title := some "T", link := none, snippet := some "S",
       full_text := some ("Error fetching text: " ++ "Invalid URL A") }]
    0 { title := some "T", link := none, snippet := some "S" }
    rfl rfl rfl

/-- C4 counterexample: the payload whose `query` is the empty string
passes validation — pydantic's `query: str` does not require
non-emptiness, contradicting the claim that validation fails for the
empty string. -/
theorem C4_counterexample :
    validate { query := some "", lang_code := none, num := some 5,
               full_text := some false } =
      .ok { query := "", lang_code := "en", num := 5, full_text := false } := rfl

/-- C4 (amended): a payload with `query` missing fails validation and the
request outcome is provider-independent (no search runs); the empty string
however is accepted as a query. -/
theorem C4_missing_query_rejected (p : RawPayload) (h : p.query = none) :
    (∃ e, validate p = .error e) ∧
    ∀ env provider provider2 fetch fetch2,
      handle env provider fetch p = handle env provider2 fetch2 p := by
  have herr : validate p = .error "query: field required" := by simp [validate, h]
  exact ⟨⟨_, herr⟩, fun env p1 p2 f1 f2 => by simp [handle, herr]⟩

/-- Witness for C4 at the concrete payload with no `query` field. -/
theorem C4_missing_query_rejected_witness :
    (∃ e, validate { query := none, lang_code := none, num := some 5,
                     full_text := some false } = .error e) ∧
    handle envOK provOne fetchHello
        { query := none, lang_code := none, num := some 5, full_text := some false } =
      handle envOK provBoom fetchBoom
        { query := none, lang_code := none, num := some 5, full_text := some false } :=
  ⟨(C4_missing_query_rejected _ rfl).1,
   (C4_missing_query_rejected _ rfl).2 envOK provOne provBoom fetchHello fetchBoom⟩

/-- A provider answering with two fully-populated items. -/
def provTwo : Provider :=
  fun _ _ _ => .ok { items := some [
    { title := some "A", link := some "http://a", snippet := some "sa" },
    { title := some "B", link := some "http://b", snippet := some "sb" }] }

/-- A fetcher failing on its first call and succeeding afterwards. -/
def c2f : Fetcher := fun j _ => if j = 0 then .error "boom" else .ok ["page"]

/-- A fetcher succeeding on every call; it agrees with `c2f` on every call
but the first. -/
def c2g : Fetcher := fun _ _ => .ok ["page"]

/-- C2: a fetch failure at one item is contained there: the request still
answers 200 with a result list, the failing item's `full_text` is the
inline error string (its other attributes unchanged), and every other
item is exactly what it would have been had that fetch not failed. -/
theorem C2_enrichment_failure_isolated (env : Env) (provider : Provider)
    (f g : Fetcher) (i : Nat) (request : SearchRequest) (items : List ProviderItem)
    (hkey : pyFalsy env.GOOGLE_API_KEY = false)
    (hcse : pyFalsy env.GOOGLE_CSE_ID = false)
    (hft : request.full_text = true)
    (hp : provider request.query ("lang_" ++ request.lang_code) request.num =
            .ok { items := some items })
    (e : String) (hfail : ∀ l, f i l = .error e)
    (hagree : ∀ j, j ≠ i → ∀ l, f j l = g j l) :
    ∃ bf bg, search env provider f request = .ok bf ∧
      search env provider g request = .ok bg ∧
      bf.results.length = bg.results.length ∧
      (∀ j, j ≠ i → bf.results.get? j = bg.results.get? j) ∧
      (∀ item, bf.results.get? i = some item →
        item.full_text = some ("Error fetching text: " ++ e) ∧
        ∀ item2, bg.results.get? i = some item2 →
          item.title = item2.title ∧ item.link = item2.link ∧
            item.snippet = item2.snippet) := by
  have hpf : perform_google_search provider f request.query request.lang_code
      request.num request.full_text = .ok (formatItems f true 0 items) := by
    rw [hft, perform_google_search, hp]
  have hpg : perform_google_search provider g request.query request.lang_code
      request.num request.full_text = .ok (formatItems g true 0 items) := by
    rw [hft, perform_google_search, hp]
  cases items with
  | nil =>
      refine ⟨{ message := some "No results found.", results := [] },
              { message := some "No results found.", results := [] },
              ?_, ?_, rfl, ?_, ?_⟩
      · simp [search, hkey, hcse, hpf, formatItems]
      · simp [search, hkey, hcse, hpg, formatItems]
      · intro j hj
        rfl
      · intro item hitem
        simp at hitem
  | cons a rest =>
      refine ⟨{ message := none, results := formatItems f true 0 (a :: rest) },
              { message := none, results := formatItems g true 0 (a :: rest) },
              ?_, ?_, ?_, ?_, ?_⟩
      · simp [search, hkey, hcse, hpf, formatItems]
      · simp [search, hkey, hcse, hpg, formatItems]
      · simp [formatItems_length]
      · intro j hj
        simp only [formatItems_get?]
        cases hx : (a :: rest).get? j with
        | none => rfl
        | some pitem => simp [Nat.zero_add, hagree j hj]
      · intro item hitem
        simp only [formatItems_get?] at hitem
        cases hx : (a :: rest).get? i with
        | none => rw [hx] at hitem; simp at hitem
        | some pitem =>
            rw [hx] at hitem
            simp at hitem
            constructor
            · rw [← hitem]
              simp [enrichItem, hfail pitem.link]
            · intro item2 hitem2
              simp only [formatItems_get?] at hitem2
              rw [hx] at hitem2
              simp at hitem2
              rw [← hitem, ← hitem2]
              simp [enrichItem_title, enrichItem_link, enrichItem_snippet]

/-- Witness for C2: two items, the first fetch failing. -/
theorem C2_enrichment_failure_isolated_witness :
    ∃ bf bg,
      search envOK provTwo c2f
          { query := "q", lang_code := "en", num := 2, full_text := true } = .ok bf ∧
      search envOK provTwo c2g
          { query := "q", lang_code := "en", num := 2, full_text := true } = .ok bg ∧
      bf.results.length = bg.results.length ∧
      (∀ j, j ≠ 0 → bf.results.get? j = bg.results.get? j) ∧
      (∀ item, bf.results.get? 0 = some item →
        item.full_text = some ("Error fetching text: " ++ "boom") ∧
        ∀ item2, bg.results.get? 0 = some item2 →
          item.title = item2.title ∧ item.link = item2.link ∧
            item.snippet = item2.snippet) :=
  C2_enrichment_failure_isolated envOK provTwo c2f c2g 0
    { query := "q", lang_code := "en", num := 2, full_text := true }
    [{ title := some "A", link := some "http://a", snippet := some "sa" },
     { title := some "B", link := some "http://b", snippet := some "sb" }]
    rfl rfl rfl rfl "boom" (fun _ => rfl)
    (by intro j hj l
        simp [c2f, c2g, hj])

/-- C8: for a valid request with `num = k`, the endpoint's result list has
at most `k` entries — the handler formats the provider items one-to-one,
so the bound holds whenever the provider honors the `num` cap it is passed
(the Custom Search API returns at most `num` results). -/
theorem C8_results_le_num (env : Env) (provider : Provider) (fetch : Fetcher)
    (request : SearchRequest) (body : ResponseBody)
    (hvalid : 1 ≤ request.num ∧ request.num ≤ 10)
    (hcap : ∀ items, provider request.query ("lang_" ++ request.lang_code) request.num =
        .ok { items := some items } → (items.length : Int) ≤ request.num)
    (h : search env provider fetch request = .ok body) :
    (body.results.length : Int) ≤ request.num := by
  rw [search] at h
  by_cases hcreds : (pyFalsy env.GOOGLE_API_KEY || pyFalsy env.GOOGLE_CSE_ID) = true
  · rw [if_pos hcreds] at h
    simp at h
  · rw [if_neg hcreds] at h
    cases hp : provider request.query ("lang_" ++ request.lang_code) request.num with
    | error e =>
        have hperf : perform_google_search provider fetch request.query request.lang_code
            request.num request.full_text =
              .error { status_code := 500, detail := "Google Search API error: " ++ e } := by
          rw [perform_google_search, hp]
        rw [hperf] at h
        simp at h
    | ok r =>
        obtain ⟨oitems⟩ := r
        cases oitems with
        | none =>
            have hperf : perform_google_search provider fetch request.query request.lang_code
                request.num request.full_text = .ok [] := by
              rw [perform_google_search, hp]
            rw [hperf] at h
            simp at h
            subst h
            simp
            omega
        | some items =>
            have hperf : perform_google_search provider fetch request.query request.lang_code
                request.num request.full_text =
                  .ok (formatItems fetch request.full_text 0 items) := by
              rw [perform_google_search, hp]
            simp only [hperf] at h
            have hlen : (formatItems fetch request.full_text 0 items).length = items.length :=
              formatItems_length _ _ _ _
            have hle : (items.length : Int) ≤ request.num := hcap items hp
            by_cases hempt : (formatItems fetch request.full_text 0 items).isEmpty = true
            · rw [if_pos hempt] at h
              simp at h
              subst h
              simp
              omega
            · rw [if_neg hempt] at h
              simp at h
              subst h
              simpa [hlen] using hle

/-- Witness for C8: one provider item against `num = 3`. -/
theorem C8_results_le_num_witness :
    ((({ message := none,
         results := [{ title := some "T", link := some "http://a", snippet := some "S",
                       full_text := none }] } : ResponseBody)).results.length : Int) ≤ 3 :=
  C8_results_le_num envOK provOne fetchHello
    { query := "q", lang_code := "en", num := 3, full_text := false }
    { message := none,
      results := [{ title := some "T", link := some "http://a", snippet := some "S",
                    full_text := none }] }
    (by decide)
    (by intro items h
        simp [provOne] at h
        subst h
        decide)
    rfl

end GoogleSearchMCP
